import Mathlib

/-!
Shallow embedding of the traffic-light controller in `src/mytraffic.c`.

The controller state `struct traffic_light` is embedded as a Lean structure;
the kernel-binding fields (`timer`, `irq_toggle`, `irq_ped`) carry no
controller semantics and are omitted.  C `int` counters are embedded as `Nat`
where the source only ever stores 0 or increments a value that started at 0
(`cycle_count`), and as `Int` where the source may leave the field holding
arbitrary `kmalloc` garbage (`ped_cycle_count`, which `mytraffic_init` never
initializes).  Machine-integer overflow of the C counters is outside the
claims and not modelled otherwise.

The four entry points that touch the controller state are embedded as pure
state-passing functions: `timer_callback`, `toggle_interrupt_handler` and
`ped_interrupt_handler` (their post-debounce accepted path; the 250 ms
debounce window is wall-clock time and only discards events, so accepted
events are the transition alphabet), `mytraffic_write` (including the
`sscanf("%u")` parse, modelled after the kernel's `vsscanf`: skip leading
whitespace, require a digit, read a digit run, wrap to `unsigned int`),
and `mytraffic_read` (its 256-byte buffer never truncates the report, whose
longest form is well under 256 bytes, so the format is embedded directly).
-/

inductive mode where
  | NORMAL
  | FLASHING_RED
  | FLASHING_YELLOW
deriving DecidableEq

structure traffic_light where
  current_mode : mode
  cycle_count : Nat
  ped_cycle_count : Int
  rate : Nat
  red_active : Bool
  yellow_active : Bool
  green_active : Bool
  ped_requested : Bool
  ped_crossing : Bool
deriving DecidableEq

/-- State initialization performed by `mytraffic_init` (lines 331-338 and 371
of `mytraffic.c`).  The structure is `kmalloc`ed, and every field is then
assigned except `ped_cycle_count`; the parameter `junk` is the arbitrary
value the uninitialized `ped_cycle_count` slot holds after `kmalloc`. -/
def mytraffic_init (junk : Int) : traffic_light :=
  { current_mode := .NORMAL
    cycle_count := 0
    ped_cycle_count := junk
    rate := 1
    red_active := false
    yellow_active := false
    green_active := true
    ped_requested := false
    ped_crossing := false }

/-- One tick of `timer_callback` (lines 168-247), minus the GPIO writes and
timer re-arm, which only mirror the computed booleans. -/
def timer_callback (light0 : traffic_light) : traffic_light :=
  let light := { light0 with cycle_count := light0.cycle_count + 1 }
  match light.current_mode with
  | .NORMAL =>
    if light.ped_crossing then
      if light.ped_cycle_count < 5 then
        { light with
          red_active := true
          yellow_active := true
          green_active := false
          ped_cycle_count := light.ped_cycle_count + 1 }
      else
        { light with
          ped_crossing := false
          ped_requested := false
          ped_cycle_count := 0
          cycle_count := 0
          red_active := false
          yellow_active := false
          green_active := true }
    else
      let cycle_position := light.cycle_count % 6
      if cycle_position = 3 then
        { light with
          red_active := false
          yellow_active := true
          green_active := false }
      else if cycle_position = 4 ∨ cycle_position = 5 then
        let light := { light with
          red_active := true
          yellow_active := false
          green_active := false }
        if light.ped_requested then
          { light with
            ped_crossing := true
            ped_requested := false
            ped_cycle_count := 0
            yellow_active := true }
        else
          light
      else
        { light with
          red_active := false
          yellow_active := false
          green_active := true }
  | .FLASHING_RED =>
    { light with
      red_active := light.cycle_count % 2 == 1
      yellow_active := false
      green_active := false }
  | .FLASHING_YELLOW =>
    { light with
      red_active := false
      yellow_active := light.cycle_count % 2 == 1
      green_active := false }

/-- Accepted (post-debounce) path of `toggle_interrupt_handler`
(lines 258-287): cycle the mode and zero `cycle_count`. -/
def toggle_interrupt_handler (light : traffic_light) : traffic_light :=
  let light :=
    match light.current_mode with
    | .NORMAL => { light with current_mode := .FLASHING_RED }
    | .FLASHING_RED => { light with current_mode := .FLASHING_YELLOW }
    | .FLASHING_YELLOW => { light with current_mode := .NORMAL }
  { light with cycle_count := 0 }

/-- Accepted (post-debounce) path of `ped_interrupt_handler`
(lines 291-306): in NORMAL mode set `ped_requested`, otherwise no-op. -/
def ped_interrupt_handler (light : traffic_light) : traffic_light :=
  if light.current_mode = .NORMAL then
    { light with ped_requested := true }
  else
    light

/-- C `isspace` on the ASCII range, as used by the kernel scanner. -/
def isCSpace (c : Char) : Bool :=
  c == ' ' || c == '\t' || c == '\n' || c == Char.ofNat 11 || c == Char.ofNat 12 || c == '\r'

/-- Numeric value of a decimal digit run, most significant first. -/
def parseDigits (cs : List Char) : Nat :=
  cs.foldl (fun acc c => acc * 10 + (c.toNat - 48)) 0

/-- Kernel `sscanf(kbuf, "%u", &new_rate)` as used at line 158: skip leading
whitespace, fail unless a decimal digit follows, read the digit run, and
store it into an `unsigned int` (wrap modulo 2^32).  Returns `none` when no
conversion is performed (`sscanf` result 0). -/
def sscanf_u (cs0 : List Char) : Option Nat :=
  let cs := cs0.dropWhile isCSpace
  match cs with
  | [] => none
  | c :: _ =>
    if c.isDigit then
      some (parseDigits (cs.takeWhile Char.isDigit) % (2 ^ 32))
    else
      none

/-- The kernel buffer `kbuf` built by `mytraffic_write`: the first `count`
bytes of the user buffer, NUL terminated (a NUL already inside the copied
bytes ends the C string there). -/
def write_kbuf (buf : List Char) (count : Nat) : List Char :=
  (buf.take count).takeWhile (fun c => c != Char.ofNat 0)

/-- `mytraffic_write` (lines 145-165): reject inputs of 16 bytes or more with
`-EINVAL` (-22); otherwise parse with `%u`, install the value only when it
lies in [1,9], and report `count` bytes consumed.  The `copy_from_user`
failure path depends on user-memory validity, which is outside the model. -/
def mytraffic_write (s : traffic_light) (buf : List Char) (count : Nat) :
    Int × traffic_light :=
  if 16 ≤ count then
    (-22, s)
  else
    match sscanf_u (write_kbuf buf count) with
    | some new_rate =>
      if 1 ≤ new_rate ∧ new_rate ≤ 9 then
        ((count : Int), { s with rate := new_rate })
      else
        ((count : Int), s)
    | none => ((count : Int), s)

/-- The status report `mytraffic_read` assembles in `kbuf` (lines 110-123).
The 256-byte buffer is never exhausted (the longest report is far shorter),
so the `snprintf` chain is a plain concatenation. -/
def status_text (s : traffic_light) : String :=
  "Mode: " ++
    (match s.current_mode with
     | .NORMAL => "normal"
     | .FLASHING_RED => "flashing-red"
     | .FLASHING_YELLOW => "flashing-yellow") ++ "\n" ++
  "Cycle Rate: " ++ toString s.rate ++ " Hz\n" ++
  "Lights: red " ++ (if s.red_active then "on" else "off") ++
  ", yellow " ++ (if s.yellow_active then "on" else "off") ++
  ", green " ++ (if s.green_active then "on" else "off") ++ "\n" ++
  "Pedestrian: " ++
    (if s.ped_requested || s.ped_crossing then "present" else "not present") ++ "\n"

/-- `mytraffic_read` (lines 103-143): returns the transferred bytes, the new
file position, and the controller state afterwards (the function stores to
`*f_pos` only, never to `*t_light`, so the state component is unchanged). -/
def mytraffic_read (s : traffic_light) (f_pos count : Nat) :
    String × Nat × traffic_light :=
  let kbuf := (status_text s).toList
  let len := kbuf.length
  if len ≤ f_pos then
    ("", f_pos, s)
  else
    let count := if len - f_pos < count then len - f_pos else count
    (String.mk ((kbuf.drop f_pos).take count), f_pos + count, s)

/-- The three commanded outputs, in the order red, yellow, green. -/
def lights (s : traffic_light) : Bool × Bool × Bool :=
  (s.red_active, s.yellow_active, s.green_active)

/-- Iterated ticks: `tl_ticks n s` is the state after `n` timer callbacks. -/
def tl_ticks : Nat → traffic_light → traffic_light
  | 0, s => s
  | n + 1, s => tl_ticks n (timer_callback s)

/-- Events of the controller: a timer tick, an accepted toggle-button edge,
an accepted pedestrian-button edge, and a write of `count` bytes of `buf`
to the device.  (`mytraffic_read` does not change the state.) -/
inductive Ev where
  | tick
  | toggle
  | pedReq
  | write (buf : List Char) (count : Nat)
deriving DecidableEq

/-- Effect of one event on the controller state. -/
def step (s : traffic_light) : Ev → traffic_light
  | .tick => timer_callback s
  | .toggle => toggle_interrupt_handler s
  | .pedReq => ped_interrupt_handler s
  | .write buf count => (mytraffic_write s buf count).2

/-- Run a list of events left to right. -/
def run (s : traffic_light) : List Ev → traffic_light
  | [] => s
  | e :: es => run (step s e) es

/-- States reachable from module initialization (any `kmalloc` garbage in the
uninitialized `ped_cycle_count` slot) by any event interleaving. -/
def Reachable (s : traffic_light) : Prop :=
  ∃ (junk : Int) (evs : List Ev), s = run (mytraffic_init junk) evs

/-- States reachable from an initial state whose `ped_cycle_count` slot
happens to hold 0. -/
def Reachable0 (s : traffic_light) : Prop :=
  ∃ evs : List Ev, s = run (mytraffic_init 0) evs

/-- The five output combinations the controller can command,
as (red, yellow, green). -/
def okCombos : List (Bool × Bool × Bool) :=
  [(false, false, false), (false, true, false), (true, false, false),
   (false, false, true), (true, true, false)]

/-- Full effect of an accepted toggle event as a record update. -/
lemma toggle_state (s : traffic_light) :
    toggle_interrupt_handler s =
      { s with
        current_mode :=
          (match s.current_mode with
           | .NORMAL => .FLASHING_RED
           | .FLASHING_RED => .FLASHING_YELLOW
           | .FLASHING_YELLOW => .NORMAL)
        cycle_count := 0 } := by
  rcases s with ⟨m, cc, pcc, rate, r, y, g, pr, pc⟩
  cases m <;> rfl

/-- An accepted pedestrian event either does nothing or only sets
`ped_requested`. -/
lemma ped_state (s : traffic_light) :
    ped_interrupt_handler s = s ∨
      ped_interrupt_handler s = { s with ped_requested := true } := by
  unfold ped_interrupt_handler
  split_ifs with h
  · exact Or.inr rfl
  · exact Or.inl rfl

/-- A write either leaves the state unchanged or only replaces `rate` by a
value in [1,9]. -/
lemma write_state (s : traffic_light) (buf : List Char) (count : Nat) :
    (mytraffic_write s buf count).2 = s ∨
      ∃ n, 1 ≤ n ∧ n ≤ 9 ∧ (mytraffic_write s buf count).2 = { s with rate := n } := by
  unfold mytraffic_write
  split_ifs with h16
  · exact Or.inl rfl
  · cases hs : sscanf_u (write_kbuf buf count) with
    | none => exact Or.inl rfl
    | some n =>
      dsimp only
      split_ifs with h9
      · exact Or.inr ⟨n, h9.1, h9.2, rfl⟩
      · exact Or.inl rfl

/-- A tick never changes the configured rate. -/
lemma tick_rate (s : traffic_light) : (timer_callback s).rate = s.rate := by
  rcases s with ⟨m, cc, pcc, rate, r, y, g, pr, pc⟩
  cases m <;> dsimp only [timer_callback] <;> split_ifs <;> rfl

/-- Any flashing-red output is an allowed combination. -/
lemma mem_okCombos_red (b : Bool) : (b, false, false) ∈ okCombos := by
  cases b <;> decide

/-- Any flashing-yellow output is an allowed combination. -/
lemma mem_okCombos_yellow (b : Bool) : (false, b, false) ∈ okCombos := by
  cases b <;> decide

/-- Every branch of the tick function commands an allowed combination. -/
lemma tick_lights_ok (s : traffic_light) : lights (timer_callback s) ∈ okCombos := by
  rcases s with ⟨m, cc, pcc, rate, r, y, g, pr, pc⟩
  cases m
  · cases pc <;> cases pr <;> dsimp only [timer_callback, lights] <;> split_ifs <;>
      dsimp only <;> decide
  · dsimp only [timer_callback, lights]
    exact mem_okCombos_red _
  · dsimp only [timer_callback, lights]
    exact mem_okCombos_yellow _

/-- A property preserved by every event holds after any run. -/
lemma run_preserve {P : traffic_light → Prop}
    (hstep : ∀ s e, P s → P (step s e)) :
    ∀ (evs : List Ev) (s : traffic_light), P s → P (run s evs) := by
  intro evs
  induction evs with
  | nil => exact fun s h => h
  | cons e es ih => exact fun s h => ih (step s e) (hstep s e h)

/-- Iterated ticks peel off at the far end as well. -/
lemma tl_ticks_succ (n : Nat) (s : traffic_light) :
    tl_ticks (n + 1) s = timer_callback (tl_ticks n s) := by
  induction n generalizing s with
  | zero => rfl
  | succ n ih =>
    show tl_ticks (n + 1) (timer_callback s) = _
    rw [ih]
    rfl

/-- One tick in NORMAL mode, no crossing, no pending request: the outputs
follow the phase `(cycle_count + 1) % 6` and nothing else changes. -/
lemma tick_normal_noreq (cc rate : Nat) (pcc : Int) (r y g : Bool) :
    timer_callback ⟨.NORMAL, cc, pcc, rate, r, y, g, false, false⟩ =
      if (cc + 1) % 6 = 3 then ⟨.NORMAL, cc + 1, pcc, rate, false, true, false, false, false⟩
      else if (cc + 1) % 6 = 4 ∨ (cc + 1) % 6 = 5 then
        ⟨.NORMAL, cc + 1, pcc, rate, true, false, false, false, false⟩
      else ⟨.NORMAL, cc + 1, pcc, rate, false, false, true, false, false⟩ := by
  dsimp only [timer_callback]
  split_ifs <;> first | rfl | simp_all

/-- One tick in NORMAL mode, no crossing, outside the stop phases: a pending
request is carried along untouched and the outputs are as without it. -/
lemma tick_normal_go (cc rate : Nat) (pcc : Int) (r y g pr : Bool)
    (h : ¬((cc + 1) % 6 = 4 ∨ (cc + 1) % 6 = 5)) :
    timer_callback ⟨.NORMAL, cc, pcc, rate, r, y, g, pr, false⟩ =
      if (cc + 1) % 6 = 3 then ⟨.NORMAL, cc + 1, pcc, rate, false, true, false, pr, false⟩
      else ⟨.NORMAL, cc + 1, pcc, rate, false, false, true, pr, false⟩ := by
  dsimp only [timer_callback]
  split_ifs <;> first | rfl | simp_all

/-- One tick in NORMAL mode, no crossing, pending request, stop phase: the
request is consumed, the crossing starts with red and yellow lit. -/
lemma tick_consume (cc rate : Nat) (pcc : Int) (r y g : Bool)
    (h : (cc + 1) % 6 = 4 ∨ (cc + 1) % 6 = 5) :
    timer_callback ⟨.NORMAL, cc, pcc, rate, r, y, g, true, false⟩ =
      ⟨.NORMAL, cc + 1, 0, rate, true, true, false, false, true⟩ := by
  dsimp only [timer_callback]
  split_ifs <;> first | rfl | simp_all

/-- One tick of an active crossing that has not yet run 5 crossing ticks. -/
lemma tick_cross (cc rate : Nat) (pcc : Int) (r y g pr : Bool) (h : pcc < 5) :
    timer_callback ⟨.NORMAL, cc, pcc, rate, r, y, g, pr, true⟩ =
      ⟨.NORMAL, cc + 1, pcc + 1, rate, true, true, false, pr, true⟩ := by
  dsimp only [timer_callback]
  split_ifs <;> first | rfl | simp_all

/-- One tick of an active crossing that has run its 5 crossing ticks:
completion restores green and resets the counters and flags. -/
lemma tick_cross_done (cc rate : Nat) (pcc : Int) (r y g pr : Bool) (h : ¬ pcc < 5) :
    timer_callback ⟨.NORMAL, cc, pcc, rate, r, y, g, pr, true⟩ =
      ⟨.NORMAL, 0, 0, rate, false, false, true, false, false⟩ := by
  dsimp only [timer_callback]
  split_ifs <;> first | rfl | simp_all

/-- C1, counterexample: from the fresh state the output after the 3rd tick is
yellow-only, not green-only as the claim states, because `timer_callback`
increments `cycle_count` before computing `cycle_count % 6`, so the 3rd tick
already lands on phase 3 (the yellow phase). -/
theorem claim_C1_counterexample :
    lights (tl_ticks 3 (mytraffic_init 0)) = (false, true, false) ∧
      ¬ lights (tl_ticks 3 (mytraffic_init 0)) = (false, false, true) := by
  decide

/-- C1, amended: starting from the freshly constructed state (whatever value
the uninitialized `ped_cycle_count` slot holds), the outputs after the first
6 ticks are green-only, green-only, yellow-only, red-only, red-only,
green-only — the fresh state itself already shows the first green phase, so
the observed sequence is the spec's 6-phase cycle shifted by one — and ticks
7 through 12 repeat exactly the same six outputs. -/
theorem claim_C1_amended (junk : Int) :
    lights (tl_ticks 1 (mytraffic_init junk)) = (false, false, true) ∧
    lights (tl_ticks 2 (mytraffic_init junk)) = (false, false, true) ∧
    lights (tl_ticks 3 (mytraffic_init junk)) = (false, true, false) ∧
    lights (tl_ticks 4 (mytraffic_init junk)) = (true, false, false) ∧
    lights (tl_ticks 5 (mytraffic_init junk)) = (true, false, false) ∧
    lights (tl_ticks 6 (mytraffic_init junk)) = (false, false, true) ∧
    lights (tl_ticks 7 (mytraffic_init junk)) = lights (tl_ticks 1 (mytraffic_init junk)) ∧
    lights (tl_ticks 8 (mytraffic_init junk)) = lights (tl_ticks 2 (mytraffic_init junk)) ∧
    lights (tl_ticks 9 (mytraffic_init junk)) = lights (tl_ticks 3 (mytraffic_init junk)) ∧
    lights (tl_ticks 10 (mytraffic_init junk)) = lights (tl_ticks 4 (mytraffic_init junk)) ∧
    lights (tl_ticks 11 (mytraffic_init junk)) = lights (tl_ticks 5 (mytraffic_init junk)) ∧
    lights (tl_ticks 12 (mytraffic_init junk)) = lights (tl_ticks 6 (mytraffic_init junk)) := by
  have f1 : timer_callback (mytraffic_init junk) =
      ⟨.NORMAL, 1, junk, 1, false, false, true, false, false⟩ := by
    rw [show mytraffic_init junk =
          (⟨.NORMAL, 0, junk, 1, false, false, true, false, false⟩ : traffic_light) from rfl,
        tick_normal_noreq]
    norm_num
  have f2 : timer_callback (⟨.NORMAL, 1, junk, 1, false, false, true, false, false⟩ : traffic_light) =
      ⟨.NORMAL, 2, junk, 1, false, false, true, false, false⟩ := by
    rw [tick_normal_noreq]; norm_num
  have f3 : timer_callback (⟨.NORMAL, 2, junk, 1, false, false, true, false, false⟩ : traffic_light) =
      ⟨.NORMAL, 3, junk, 1, false, true, false, false, false⟩ := by
    rw [tick_normal_noreq]; norm_num
  have f4 : timer_callback (⟨.NORMAL, 3, junk, 1, false, true, false, false, false⟩ : traffic_light) =
      ⟨.NORMAL, 4, junk, 1, true, false, false, false, false⟩ := by
    rw [tick_normal_noreq]; norm_num
  have f5 : timer_callback (⟨.NORMAL, 4, junk, 1, true, false, false, false, false⟩ : traffic_light) =
      ⟨.NORMAL, 5, junk, 1, true, false, false, false, false⟩ := by
    rw [tick_normal_noreq]; norm_num
  have f6 : timer_callback (⟨.NORMAL, 5, junk, 1, true, false, false, false, false⟩ : traffic_light) =
      ⟨.NORMAL, 6, junk, 1, false, false, true, false, false⟩ := by
    rw [tick_normal_noreq]; norm_num
  have f7 : timer_callback (⟨.NORMAL, 6, junk, 1, false, false, true, false, false⟩ : traffic_light) =
      ⟨.NORMAL, 7, junk, 1, false, false, true, false, false⟩ := by
    rw [tick_normal_noreq]; norm_num
  have f8 : timer_callback (⟨.NORMAL, 7, junk, 1, false, false, true, false, false⟩ : traffic_light) =
      ⟨.NORMAL, 8, junk, 1, false, false, true, false, false⟩ := by
    rw [tick_normal_noreq]; norm_num
  have f9 : timer_callback (⟨.NORMAL, 8, junk, 1, false, false, true, false, false⟩ : traffic_light) =
      ⟨.NORMAL, 9, junk, 1, false, true, false, false, false⟩ := by
    rw [tick_normal_noreq]; norm_num
  have f10 : timer_callback (⟨.NORMAL, 9, junk, 1, false, true, false, false, false⟩ : traffic_light) =
      ⟨.NORMAL, 10, junk, 1, true, false, false, false, false⟩ := by
    rw [tick_normal_noreq]; norm_num
  have f11 : timer_callback (⟨.NORMAL, 10, junk, 1, true, false, false, false, false⟩ : traffic_light) =
      ⟨.NORMAL, 11, junk, 1, true, false, false, false, false⟩ := by
    rw [tick_normal_noreq]; norm_num
  have f12 : timer_callback (⟨.NORMAL, 11, junk, 1, true, false, false, false, false⟩ : traffic_light) =
      ⟨.NORMAL, 12, junk, 1, false, false, true, false, false⟩ := by
    rw [tick_normal_noreq]; norm_num
  have e1 : tl_ticks 1 (mytraffic_init junk) =
      ⟨.NORMAL, 1, junk, 1, false, false, true, false, false⟩ := by
    rw [tl_ticks_succ]
    exact f1
  have e2 : tl_ticks 2 (mytraffic_init junk) =
      ⟨.NORMAL, 2, junk, 1, false, false, true, false, false⟩ := by
    rw [tl_ticks_succ, e1]
    exact f2
  have e3 : tl_ticks 3 (mytraffic_init junk) =
      ⟨.NORMAL, 3, junk, 1, false, true, false, false, false⟩ := by
    rw [tl_ticks_succ, e2]
    exact f3
  have e4 : tl_ticks 4 (mytraffic_init junk) =
      ⟨.NORMAL, 4, junk, 1, true, false, false, false, false⟩ := by
    rw [tl_ticks_succ, e3]
    exact f4
  have e5 : tl_ticks 5 (mytraffic_init junk) =
      ⟨.NORMAL, 5, junk, 1, true, false, false, false, false⟩ := by
    rw [tl_ticks_succ, e4]
    exact f5
  have e6 : tl_ticks 6 (mytraffic_init junk) =
      ⟨.NORMAL, 6, junk, 1, false, false, true, false, false⟩ := by
    rw [tl_ticks_succ, e5]
    exact f6
  have e7 : tl_ticks 7 (mytraffic_init junk) =
      ⟨.NORMAL, 7, junk, 1, false, false, true, false, false⟩ := by
    rw [tl_ticks_succ, e6]
    exact f7
  have e8 : tl_ticks 8 (mytraffic_init junk) =
      ⟨.NORMAL, 8, junk, 1, false, false, true, false, false⟩ := by
    rw [tl_ticks_succ, e7]
    exact f8
  have e9 : tl_ticks 9 (mytraffic_init junk) =
      ⟨.NORMAL, 9, junk, 1, false, true, false, false, false⟩ := by
    rw [tl_ticks_succ, e8]
    exact f9
  have e10 : tl_ticks 10 (mytraffic_init junk) =
      ⟨.NORMAL, 10, junk, 1, true, false, false, false, false⟩ := by
    rw [tl_ticks_succ, e9]
    exact f10
  have e11 : tl_ticks 11 (mytraffic_init junk) =
      ⟨.NORMAL, 11, junk, 1, true, false, false, false, false⟩ := by
    rw [tl_ticks_succ, e10]
    exact f11
  have e12 : tl_ticks 12 (mytraffic_init junk) =
      ⟨.NORMAL, 12, junk, 1, false, false, true, false, false⟩ := by
    rw [tl_ticks_succ, e11]
    exact f12
  refine ⟨?_, ?_, ?_, ?_, ?_, ?_, ?_, ?_, ?_, ?_, ?_, ?_⟩
  · rw [e1]; rfl
  · rw [e2]; rfl
  · rw [e3]; rfl
  · rw [e4]; rfl
  · rw [e5]; rfl
  · rw [e6]; rfl
  · rw [e7, e1]; rfl
  · rw [e8, e2]; rfl
  · rw [e9, e3]; rfl
  · rw [e10, e4]; rfl
  · rw [e11, e5]; rfl
  · rw [e12, e6]; rfl

/-- C2: every state reachable from initialization by any interleaving of
ticks, toggles, pedestrian requests (and also rate writes, which never touch
the lights) commands one of the five allowed output combinations: all off,
yellow only, red only, green only, or red and yellow together. -/
theorem claim_C2 (s : traffic_light) (hs : Reachable s) : lights s ∈ okCombos := by
  obtain ⟨junk, evs, rfl⟩ := hs
  refine run_preserve (P := fun t => lights t ∈ okCombos) ?_ evs (mytraffic_init junk) ?_
  · intro s e h
    cases e with
    | tick => exact tick_lights_ok s
    | toggle =>
      show lights (toggle_interrupt_handler s) ∈ okCombos
      rw [toggle_state]
      exact h
    | pedReq =>
      show lights (ped_interrupt_handler s) ∈ okCombos
      rcases ped_state s with h1 | h1 <;> rw [h1] <;> exact h
    | write buf count =>
      show lights (mytraffic_write s buf count).2 ∈ okCombos
      rcases write_state s buf count with h1 | ⟨n, _, _, h1⟩ <;> rw [h1] <;> exact h
  · show lights (mytraffic_init junk) ∈ okCombos
    have h : lights (mytraffic_init junk) = (false, false, true) := rfl
    rw [h]
    decide

/-- C2, witness: the claim applied to the initial state itself. -/
theorem claim_C2_witness : lights (mytraffic_init 0) ∈ okCombos :=
  claim_C2 (mytraffic_init 0) ⟨0, [], rfl⟩

/-- C7: at the failing input (kmalloc garbage 7 in the `ped_cycle_count`
slot), `mytraffic_init` produces every claimed field value except
`ped_cycle_count`, which keeps the garbage value 7 instead of 0 — the
initialization code never assigns `ped_cycle_count`. -/
theorem claim_C7_code_bug :
    (mytraffic_init 7).current_mode = mode.NORMAL ∧
    (mytraffic_init 7).green_active = true ∧
    (mytraffic_init 7).red_active = false ∧
    (mytraffic_init 7).yellow_active = false ∧
    (mytraffic_init 7).rate = 1 ∧
    (mytraffic_init 7).cycle_count = 0 ∧
    (mytraffic_init 7).ped_requested = false ∧
    (mytraffic_init 7).ped_crossing = false ∧
    (mytraffic_init 7).ped_cycle_count = 7 := by
  decide

/-- C8, counterexample: a write of 16 bytes is rejected with `-EINVAL` (-22),
not reported as 16 bytes consumed, because `mytraffic_write` refuses any
count not smaller than its 16-byte kernel buffer. -/
theorem claim_C8_counterexample :
    (mytraffic_write (mytraffic_init 0) (List.replicate 16 '5') 16).1 = -22 ∧
      ¬ (mytraffic_write (mytraffic_init 0) (List.replicate 16 '5') 16).1 = (16 : Int) := by
  decide

/-- C8, amended: for every input buffer and every byte count below 16 the
write reports all `count` bytes consumed — also when the value is out of
range or the text does not parse — while a count of 16 or more is rejected
with `-EINVAL` and leaves the state unchanged. -/
theorem claim_C8_amended (s : traffic_light) (buf : List Char) (count : Nat) :
    (count < 16 → (mytraffic_write s buf count).1 = (count : Int)) ∧
    (16 ≤ count →
      (mytraffic_write s buf count).1 = -22 ∧ (mytraffic_write s buf count).2 = s) := by
  constructor
  · intro h
    unfold mytraffic_write
    rw [if_neg (by omega)]
    cases sscanf_u (write_kbuf buf count) with
    | none => rfl
    | some n =>
      dsimp only
      split_ifs <;> rfl
  · intro h
    unfold mytraffic_write
    rw [if_pos h]
    exact ⟨rfl, rfl⟩

/-- C8, witness: a 1-byte valid write reports 1 byte consumed, and a 20-byte
write is rejected with -22. -/
theorem claim_C8_amended_witness :
    (mytraffic_write (mytraffic_init 0) ['5'] 1).1 = (1 : Int) ∧
      (mytraffic_write (mytraffic_init 0) [] 20).1 = -22 :=
  ⟨(claim_C8_amended (mytraffic_init 0) ['5'] 1).1 (by decide),
   ((claim_C8_amended (mytraffic_init 0) [] 20).2 (by decide)).1⟩

/-- C10: an accepted toggle event advances the mode one step along
Normal, FlashingRed, FlashingYellow, Normal and zeroes `cycle_count`, and
changes nothing else: the pedestrian request, the active crossing and its
counter, the rate and the three outputs are untouched — in particular a
toggle during an active crossing does not cancel the crossing. -/
theorem claim_C10 (s : traffic_light) :
    (toggle_interrupt_handler s).current_mode =
      (match s.current_mode with
       | .NORMAL => .FLASHING_RED
       | .FLASHING_RED => .FLASHING_YELLOW
       | .FLASHING_YELLOW => .NORMAL) ∧
    (toggle_interrupt_handler s).cycle_count = 0 ∧
    (toggle_interrupt_handler s).ped_requested = s.ped_requested ∧
    (toggle_interrupt_handler s).ped_crossing = s.ped_crossing ∧
    (toggle_interrupt_handler s).ped_cycle_count = s.ped_cycle_count ∧
    (toggle_interrupt_handler s).rate = s.rate ∧
    lights (toggle_interrupt_handler s) = lights s := by
  rcases s with ⟨m, cc, pcc, rate, r, y, g, pr, pc⟩
  cases m <;> exact ⟨rfl, rfl, rfl, rfl, rfl, rfl, rfl⟩

/-- Ticks also satisfy `tl_ticks 0 s = s` as a rewrite rule. -/
lemma tl_ticks_zero (s : traffic_light) : tl_ticks 0 s = s := rfl

/-- A tick keeps `ped_cycle_count` within [0,5] once it is there. -/
lemma tick_pcc_bounds (s : traffic_light)
    (h : 0 ≤ s.ped_cycle_count ∧ s.ped_cycle_count ≤ 5) :
    0 ≤ (timer_callback s).ped_cycle_count ∧ (timer_callback s).ped_cycle_count ≤ 5 := by
  rcases s with ⟨m, cc, pcc, rate, r, y, g, pr, pc⟩
  dsimp only at h
  cases m <;> cases pc <;> cases pr <;> dsimp only [timer_callback] <;>
    (try split_ifs) <;> (try dsimp only) <;> omega

/-- C3: in Normal mode a pending request leaves the commanded outputs
untouched on ticks whose phase is not 4 or 5; on a phase-4-or-5 tick it is
consumed, starting the crossing with red and yellow lit and the crossing
counter reset; the next 5 ticks from the consumption state keep red and
yellow lit with green off, and the 6th tick restores green with
`cycle_count` reset to 0 and `ped_crossing` cleared. -/
theorem claim_C3 :
    (∀ s : traffic_light, s.current_mode = .NORMAL → s.ped_crossing = false →
      ¬((s.cycle_count + 1) % 6 = 4 ∨ (s.cycle_count + 1) % 6 = 5) →
      lights (timer_callback { s with ped_requested := true }) =
        lights (timer_callback { s with ped_requested := false })) ∧
    (∀ s : traffic_light, s.current_mode = .NORMAL → s.ped_crossing = false →
      s.ped_requested = true →
      ((s.cycle_count + 1) % 6 = 4 ∨ (s.cycle_count + 1) % 6 = 5) →
      lights (timer_callback s) = (true, true, false) ∧
      (timer_callback s).ped_requested = false ∧
      (timer_callback s).ped_crossing = true ∧
      (timer_callback s).ped_cycle_count = 0) ∧
    (∀ s : traffic_light, s.current_mode = .NORMAL → s.ped_crossing = true →
      s.ped_cycle_count = 0 →
      (lights (tl_ticks 1 s) = (true, true, false) ∧
       lights (tl_ticks 2 s) = (true, true, false) ∧
       lights (tl_ticks 3 s) = (true, true, false) ∧
       lights (tl_ticks 4 s) = (true, true, false) ∧
       lights (tl_ticks 5 s) = (true, true, false)) ∧
      lights (tl_ticks 6 s) = (false, false, true) ∧
      (tl_ticks 6 s).cycle_count = 0 ∧
      (tl_ticks 6 s).ped_crossing = false) := by
  refine ⟨?_, ?_, ?_⟩
  · intro s h1 h2 hph
    rcases s with ⟨m, cc, pcc, rate, r, y, g, pr, pc⟩
    dsimp only at h1 h2 hph
    subst h1
    subst h2
    rw [show ({ (⟨.NORMAL, cc, pcc, rate, r, y, g, pr, false⟩ : traffic_light) with
          ped_requested := true } : traffic_light) =
        ⟨.NORMAL, cc, pcc, rate, r, y, g, true, false⟩ from rfl,
      show ({ (⟨.NORMAL, cc, pcc, rate, r, y, g, pr, false⟩ : traffic_light) with
          ped_requested := false } : traffic_light) =
        ⟨.NORMAL, cc, pcc, rate, r, y, g, false, false⟩ from rfl,
      tick_normal_go cc rate pcc r y g true hph,
      tick_normal_go cc rate pcc r y g false hph]
    split_ifs <;> rfl
  · intro s h1 h2 h3 hph
    rcases s with ⟨m, cc, pcc, rate, r, y, g, pr, pc⟩
    dsimp only at h1 h2 h3 hph
    subst h1
    subst h2
    subst h3
    rw [tick_consume cc rate pcc r y g hph]
    exact ⟨rfl, rfl, rfl, rfl⟩
  · intro s h1 h2 h3
    rcases s with ⟨m, cc, pcc, rate, r, y, g, pr, pc⟩
    dsimp only at h1 h2 h3
    subst h1
    subst h2
    subst h3
    have g1 : timer_callback (⟨.NORMAL, cc, 0, rate, r, y, g, pr, true⟩ : traffic_light) =
        ⟨.NORMAL, cc + 1, 1, rate, true, true, false, pr, true⟩ := by
      rw [tick_cross cc rate 0 r y g pr (by decide)]
      norm_num
    have g2 : timer_callback
          (⟨.NORMAL, cc + 1, 1, rate, true, true, false, pr, true⟩ : traffic_light) =
        ⟨.NORMAL, cc + 2, 2, rate, true, true, false, pr, true⟩ := by
      rw [tick_cross (cc + 1) rate 1 true true false pr (by decide)]
      norm_num
    have g3 : timer_callback
          (⟨.NORMAL, cc + 2, 2, rate, true, true, false, pr, true⟩ : traffic_light) =
        ⟨.NORMAL, cc + 3, 3, rate, true, true, false, pr, true⟩ := by
      rw [tick_cross (cc + 2) rate 2 true true false pr (by decide)]
      norm_num
    have g4 : timer_callback
          (⟨.NORMAL, cc + 3, 3, rate, true, true, false, pr, true⟩ : traffic_light) =
        ⟨.NORMAL, cc + 4, 4, rate, true, true, false, pr, true⟩ := by
      rw [tick_cross (cc + 3) rate 3 true true false pr (by decide)]
      norm_num
    have g5 : timer_callback
          (⟨.NORMAL, cc + 4, 4, rate, true, true, false, pr, true⟩ : traffic_light) =
        ⟨.NORMAL, cc + 5, 5, rate, true, true, false, pr, true⟩ := by
      rw [tick_cross (cc + 4) rate 4 true true false pr (by decide)]
      norm_num
    have g6 : timer_callback
          (⟨.NORMAL, cc + 5, 5, rate, true, true, false, pr, true⟩ : traffic_light) =
        ⟨.NORMAL, 0, 0, rate, false, false, true, false, false⟩ := by
      rw [tick_cross_done (cc + 5) rate 5 true true false pr (by decide)]
    have e1 : tl_ticks 1 (⟨.NORMAL, cc, 0, rate, r, y, g, pr, true⟩ : traffic_light) =
        ⟨.NORMAL, cc + 1, 1, rate, true, true, false, pr, true⟩ := by
      rw [tl_ticks_succ, tl_ticks_zero]
      exact g1
    have e2 : tl_ticks 2 (⟨.NORMAL, cc, 0, rate, r, y, g, pr, true⟩ : traffic_light) =
        ⟨.NORMAL, cc + 2, 2, rate, true, true, false, pr, true⟩ := by
      rw [tl_ticks_succ, e1]
      exact g2
    have e3 : tl_ticks 3 (⟨.NORMAL, cc, 0, rate, r, y, g, pr, true⟩ : traffic_light) =
        ⟨.NORMAL, cc + 3, 3, rate, true, true, false, pr, true⟩ := by
      rw [tl_ticks_succ, e2]
      exact g3
    have e4 : tl_ticks 4 (⟨.NORMAL, cc, 0, rate, r, y, g, pr, true⟩ : traffic_light) =
        ⟨.NORMAL, cc + 4, 4, rate, true, true, false, pr, true⟩ := by
      rw [tl_ticks_succ, e3]
      exact g4
    have e5 : tl_ticks 5 (⟨.NORMAL, cc, 0, rate, r, y, g, pr, true⟩ : traffic_light) =
        ⟨.NORMAL, cc + 5, 5, rate, true, true, false, pr, true⟩ := by
      rw [tl_ticks_succ, e4]
      exact g5
    have e6 : tl_ticks 6 (⟨.NORMAL, cc, 0, rate, r, y, g, pr, true⟩ : traffic_light) =
        ⟨.NORMAL, 0, 0, rate, false, false, true, false, false⟩ := by
      rw [tl_ticks_succ, e5]
      exact g6
    refine ⟨⟨?_, ?_, ?_, ?_, ?_⟩, ?_, ?_, ?_⟩
    · rw [e1]; rfl
    · rw [e2]; rfl
    · rw [e3]; rfl
    · rw [e4]; rfl
    · rw [e5]; rfl
    · rw [e6]; rfl
    · rw [e6]
    · rw [e6]

/-- C3, witness: the three parts applied at the fresh state, at the fresh
state advanced to the tick before the stop phase with a pending request, and
at a fresh crossing state. -/
theorem claim_C3_witness :
    lights (timer_callback { mytraffic_init 0 with ped_requested := true }) =
        lights (timer_callback { mytraffic_init 0 with ped_requested := false }) ∧
    lights (timer_callback
        { mytraffic_init 0 with cycle_count := 3, ped_requested := true }) =
      (true, true, false) ∧
    lights (tl_ticks 6 { mytraffic_init 0 with ped_crossing := true }) =
      (false, false, true) :=
  ⟨claim_C3.1 (mytraffic_init 0) rfl rfl (by decide),
   (claim_C3.2.1 { mytraffic_init 0 with cycle_count := 3, ped_requested := true }
      rfl rfl rfl (by decide)).1,
   (claim_C3.2.2 { mytraffic_init 0 with ped_crossing := true } rfl rfl rfl).2.1⟩

/-- C4, counterexample: a pedestrian request delivered while a crossing is
already in progress (request, four ticks to reach the stop phase and start
the crossing, then a second request) leaves `ped_requested` and
`ped_crossing` both true — and they stay both true until the crossing
completes, not only for the instant of a transition. -/
theorem claim_C4_counterexample :
    (run (mytraffic_init 0)
        [.pedReq, .tick, .tick, .tick, .tick, .pedReq]).ped_requested = true ∧
    (run (mytraffic_init 0)
        [.pedReq, .tick, .tick, .tick, .tick, .pedReq]).ped_crossing = true := by
  decide

/-- C4, amended: `ped_requested` and `ped_crossing` are not both true
initially, and every operation preserves that — except a pedestrian-request
event delivered while `ped_crossing` is true, which leaves both flags set. -/
theorem claim_C4_amended :
    (∀ junk : Int,
      ¬((mytraffic_init junk).ped_requested = true ∧
        (mytraffic_init junk).ped_crossing = true)) ∧
    (∀ (s : traffic_light) (e : Ev),
      ¬(s.ped_requested = true ∧ s.ped_crossing = true) →
      ¬(e = Ev.pedReq ∧ s.ped_crossing = true) →
      ¬((step s e).ped_requested = true ∧ (step s e).ped_crossing = true)) := by
  constructor
  · rintro junk ⟨h1, h2⟩
    simp [mytraffic_init] at h1
  · intro s e h he
    cases e with
    | tick =>
      show ¬((timer_callback s).ped_requested = true ∧
        (timer_callback s).ped_crossing = true)
      clear he
      rcases s with ⟨m, cc, pcc, rate, r, y, g, pr, pc⟩
      dsimp only at h
      cases m <;> cases pc <;> cases pr <;> dsimp only [timer_callback] <;>
        (try split_ifs) <;> (try dsimp only) <;>
        first
          | (simp; done)
          | exact absurd rfl ‹¬ true = true›
          | exact absurd ⟨rfl, rfl⟩ h
    | toggle =>
      show ¬((toggle_interrupt_handler s).ped_requested = true ∧
        (toggle_interrupt_handler s).ped_crossing = true)
      rw [toggle_state]
      exact h
    | pedReq =>
      have hc : s.ped_crossing = false := by
        cases hc : s.ped_crossing
        · rfl
        · exact absurd ⟨rfl, hc⟩ he
      show ¬((ped_interrupt_handler s).ped_requested = true ∧
        (ped_interrupt_handler s).ped_crossing = true)
      unfold ped_interrupt_handler
      split_ifs with hm
      · rintro ⟨h1, h2⟩
        simp [hc] at h2
      · exact h
    | write buf count =>
      show ¬((mytraffic_write s buf count).2.ped_requested = true ∧
        (mytraffic_write s buf count).2.ped_crossing = true)
      rcases write_state s buf count with h1 | ⟨n, _, _, h1⟩ <;> rw [h1] <;> exact h

/-- C4, witness: the step-preservation part applied to a tick from the
freshly constructed state. -/
theorem claim_C4_witness :
    ¬((step (mytraffic_init 0) Ev.tick).ped_requested = true ∧
      (step (mytraffic_init 0) Ev.tick).ped_crossing = true) :=
  claim_C4_amended.2 (mytraffic_init 0) Ev.tick (by decide) (by decide)

/-- C5, counterexample: a reachable state (request, then nine ticks: four to
start the crossing, five crossing ticks) has `ped_cycle_count = 5`, outside
the claimed half-open range [0,5). -/
theorem claim_C5_counterexample :
    Reachable (run (mytraffic_init 0)
      [.pedReq, .tick, .tick, .tick, .tick, .tick, .tick, .tick, .tick, .tick]) ∧
    (run (mytraffic_init 0)
      [.pedReq, .tick, .tick, .tick, .tick, .tick, .tick, .tick, .tick, .tick]).ped_cycle_count
        = 5 :=
  ⟨⟨0, [.pedReq, .tick, .tick, .tick, .tick, .tick, .tick, .tick, .tick, .tick], rfl⟩,
   by decide⟩

/-- C5, amended: from an initial state whose uninitialized `ped_cycle_count`
slot holds 0, every reachable state satisfies `0 ≤ ped_cycle_count ≤ 5` (the
value 5 is attained on the fifth crossing tick), and the counter is reset to
0 both when a crossing starts and when it completes. -/
theorem claim_C5_amended :
    (∀ s : traffic_light, Reachable0 s →
      0 ≤ s.ped_cycle_count ∧ s.ped_cycle_count ≤ 5) ∧
    (∀ s : traffic_light, s.current_mode = .NORMAL → s.ped_crossing = false →
      s.ped_requested = true →
      ((s.cycle_count + 1) % 6 = 4 ∨ (s.cycle_count + 1) % 6 = 5) →
      (timer_callback s).ped_crossing = true ∧
        (timer_callback s).ped_cycle_count = 0) ∧
    (∀ s : traffic_light, s.current_mode = .NORMAL → s.ped_crossing = true →
      ¬ s.ped_cycle_count < 5 →
      (timer_callback s).ped_crossing = false ∧
        (timer_callback s).ped_cycle_count = 0) := by
  refine ⟨?_, ?_, ?_⟩
  · intro s hs
    obtain ⟨evs, rfl⟩ := hs
    refine run_preserve
      (P := fun t => 0 ≤ t.ped_cycle_count ∧ t.ped_cycle_count ≤ 5) ?_ evs _ (by decide)
    intro s e h
    cases e with
    | tick => exact tick_pcc_bounds s h
    | toggle =>
      show 0 ≤ (toggle_interrupt_handler s).ped_cycle_count ∧
        (toggle_interrupt_handler s).ped_cycle_count ≤ 5
      rw [toggle_state]
      exact h
    | pedReq =>
      show 0 ≤ (ped_interrupt_handler s).ped_cycle_count ∧
        (ped_interrupt_handler s).ped_cycle_count ≤ 5
      rcases ped_state s with h1 | h1 <;> rw [h1] <;> exact h
    | write buf count =>
      show 0 ≤ (mytraffic_write s buf count).2.ped_cycle_count ∧
        (mytraffic_write s buf count).2.ped_cycle_count ≤ 5
      rcases write_state s buf count with h1 | ⟨n, _, _, h1⟩ <;> rw [h1] <;> exact h
  · intro s h1 h2 h3 hph
    rcases s with ⟨m, cc, pcc, rate, r, y, g, pr, pc⟩
    dsimp only at h1 h2 h3 hph
    subst h1
    subst h2
    subst h3
    rw [tick_consume cc rate pcc r y g hph]
    exact ⟨rfl, rfl⟩
  · intro s h1 h2 h5
    rcases s with ⟨m, cc, pcc, rate, r, y, g, pr, pc⟩
    dsimp only at h1 h2 h5
    subst h1
    subst h2
    rw [tick_cross_done cc rate pcc r y g pr h5]
    exact ⟨rfl, rfl⟩

/-- C5, witness: the bound applied to the initial state, and the two reset
parts applied at a consuming tick and a completing tick. -/
theorem claim_C5_witness :
    (0 ≤ (mytraffic_init 0).ped_cycle_count ∧ (mytraffic_init 0).ped_cycle_count ≤ 5) ∧
    (timer_callback { mytraffic_init 0 with cycle_count := 3, ped_requested := true
        }).ped_cycle_count = 0 ∧
    (timer_callback { mytraffic_init 0 with ped_crossing := true, ped_cycle_count := 5
        }).ped_cycle_count = 0 :=
  ⟨claim_C5_amended.1 (mytraffic_init 0) ⟨[], rfl⟩,
   (claim_C5_amended.2.1 { mytraffic_init 0 with cycle_count := 3, ped_requested := true }
      rfl rfl rfl (by decide)).2,
   (claim_C5_amended.2.2 { mytraffic_init 0 with ped_crossing := true, ped_cycle_count := 5 }
      rfl rfl (by decide)).2⟩

/-- C6: the rate starts at 1, lies in [1,9] in every reachable state, a
write changes it only to a parsed value in [1,9], and writes whose parsed
value is out of range — or which do not parse as an integer — leave it
unchanged. -/
theorem claim_C6 :
    (∀ junk : Int, (mytraffic_init junk).rate = 1) ∧
    (∀ s : traffic_light, Reachable s → 1 ≤ s.rate ∧ s.rate ≤ 9) ∧
    (∀ (s : traffic_light) (buf : List Char) (count : Nat),
      (mytraffic_write s buf count).2.rate ≠ s.rate →
      ∃ n, sscanf_u (write_kbuf buf count) = some n ∧ 1 ≤ n ∧ n ≤ 9 ∧
        (mytraffic_write s buf count).2.rate = n) ∧
    (∀ (s : traffic_light) (buf : List Char) (count : Nat),
      (sscanf_u (write_kbuf buf count) = none ∨
        (∃ n, sscanf_u (write_kbuf buf count) = some n ∧ (n < 1 ∨ 9 < n))) →
      (mytraffic_write s buf count).2.rate = s.rate) := by
  refine ⟨fun junk => rfl, ?_, ?_, ?_⟩
  · intro s hs
    obtain ⟨junk, evs, rfl⟩ := hs
    refine run_preserve (P := fun t => 1 ≤ t.rate ∧ t.rate ≤ 9) ?_ evs _
      (by constructor <;> simp [mytraffic_init])
    intro s e h
    cases e with
    | tick =>
      show 1 ≤ (timer_callback s).rate ∧ (timer_callback s).rate ≤ 9
      rw [tick_rate]
      exact h
    | toggle =>
      show 1 ≤ (toggle_interrupt_handler s).rate ∧ (toggle_interrupt_handler s).rate ≤ 9
      rw [toggle_state]
      exact h
    | pedReq =>
      show 1 ≤ (ped_interrupt_handler s).rate ∧ (ped_interrupt_handler s).rate ≤ 9
      rcases ped_state s with h1 | h1 <;> rw [h1] <;> exact h
    | write buf count =>
      show 1 ≤ (mytraffic_write s buf count).2.rate ∧ (mytraffic_write s buf count).2.rate ≤ 9
      rcases write_state s buf count with h1 | ⟨n, hn1, hn9, h1⟩
      · rw [h1]; exact h
      · rw [h1]; exact ⟨hn1, hn9⟩
  · intro s buf count hne
    unfold mytraffic_write at hne ⊢
    split_ifs at hne ⊢ with h16
    · exact absurd rfl hne
    · cases hs : sscanf_u (write_kbuf buf count) with
      | none =>
        rw [hs] at hne
        exact absurd rfl hne
      | some n =>
        rw [hs] at hne
        dsimp only at hne ⊢
        split_ifs at hne ⊢ with h9
        · exact ⟨n, rfl, h9.1, h9.2, rfl⟩
        · exact absurd rfl hne
  · intro s buf count hcase
    unfold mytraffic_write
    split_ifs with h16
    · rfl
    · rcases hcase with hnone | ⟨n, hs, hout⟩
      · rw [hnone]
      · rw [hs]
        dsimp only
        split_ifs with h9
        · exact absurd h9 (by omega)
        · rfl

/-- C6, witness: the invariant applied to the initial state, and the
unchanged-rate part applied to a write of the out-of-range text 10. -/
theorem claim_C6_witness :
    (1 ≤ (mytraffic_init 0).rate ∧ (mytraffic_init 0).rate ≤ 9) ∧
    (mytraffic_write (mytraffic_init 0) ['1', '0'] 2).2.rate = (mytraffic_init 0).rate :=
  ⟨claim_C6.2.1 (mytraffic_init 0) ⟨0, [], rfl⟩,
   claim_C6.2.2.2 (mytraffic_init 0) ['1', '0'] 2 (Or.inr ⟨10, by decide, by decide⟩)⟩

/-- C9: reading the freshly constructed state from offset 0 with a buffer of
at least the 92-byte report yields exactly the specified text, and the read
operation never changes the controller state. -/
theorem claim_C9 :
    (∀ (junk : Int) (count : Nat), 92 ≤ count →
      (mytraffic_read (mytraffic_init junk) 0 count).1 =
        "Mode: normal\nCycle Rate: 1 Hz\nLights: red off, yellow off, green on\nPedestrian: not present\n") ∧
    (∀ (s : traffic_light) (f_pos count : Nat), (mytraffic_read s f_pos count).2.2 = s) := by
  constructor
  · intro junk count hc
    have h : status_text (mytraffic_init junk) =
        "Mode: normal\nCycle Rate: 1 Hz\nLights: red off, yellow off, green on\nPedestrian: not present\n" := by
      with_unfolding_all rfl
    have hlen :
        ("Mode: normal\nCycle Rate: 1 Hz\nLights: red off, yellow off, green on\nPedestrian: not present\n").toList.length
          = 92 := by decide
    unfold mytraffic_read
    rw [h]
    dsimp only
    rw [hlen, if_neg (by omega)]
    by_cases hlt : 92 - 0 < count
    · rw [if_pos hlt]
      dsimp only
      decide
    · rw [if_neg hlt]
      have hcount : count = 92 := by omega
      subst hcount
      dsimp only
      decide
  · intro s f_pos count
    unfold mytraffic_read
    dsimp only
    split_ifs <;> rfl

/-- C9, witness: a 256-byte read of the fresh state at offset 0, and the
state portion of that read. -/
theorem claim_C9_witness :
    (mytraffic_read (mytraffic_init 0) 0 256).1 =
      "Mode: normal\nCycle Rate: 1 Hz\nLights: red off, yellow off, green on\nPedestrian: not present\n" :=
  claim_C9.1 0 256 (by norm_num)
